import Mathlib

/-!
Verification of the Spirix GPU special-value encoding
(src/gpu/spirix_constants.h).

Embedding conventions: each C int16_t field is modelled by its 16-bit
pattern as a Nat (two int16_t values are equal iff their bit patterns
are equal, and the source only ever compares fields for equality or
shifts the unsigned reinterpretation right, so this is faithful).
The C cast-and-shift (uint16_t)fraction >> 13 becomes fraction >>> 13.
Functions writing through out-pointers are modelled as functions from
the initial contents of the output fields to their final contents, so
a branch that leaves a field unwritten returns it unchanged.
-/

-- ═══ Special exponent values ═══

def SPIRIX_AMBIGUOUS_EXPONENT : Nat := 0b1000000000000000

-- ═══ Level 0: Zero and Infinity ═══

def SPIRIX_ZERO_FRACTION : Nat := 0b0000000000000000

def SPIRIX_INFINITY_FRACTION : Nat := 0b1111111111111111

-- ═══ Level 2: Vanished (effectively zero) ═══

def SPIRIX_VANISHED_POS_PATTERN : Nat := 0b0010000000000000

def SPIRIX_VANISHED_NEG_PATTERN : Nat := 0b1101111111111111

-- ═══ Level 3: basic operators ═══

def SPIRIX_UNDEF_TRANSFINITE_PLUS_TRANSFINITE : Nat := 0b0001111100000000

def SPIRIX_UNDEF_TRANSFINITE_MINUS_TRANSFINITE : Nat := 0b1110000000000000

def SPIRIX_UNDEF_VANISHED_PLUS_VANISHED : Nat := 0b0001111000000000

def SPIRIX_UNDEF_VANISHED_MINUS_VANISHED : Nat := 0b1110000100000000

def SPIRIX_UNDEF_TRANSFINITE_PLUS_FINITE : Nat := 0b0001110000000000

def SPIRIX_UNDEF_TRANSFINITE_MINUS_FINITE : Nat := 0b1110001100000000

def SPIRIX_UNDEF_FINITE_PLUS_TRANSFINITE : Nat := 0b0001100000000000

def SPIRIX_UNDEF_FINITE_MINUS_TRANSFINITE : Nat := 0b1110011100000000

def SPIRIX_UNDEF_TRANSFINITE_DIV_TRANSFINITE : Nat := 0b0001011000000000

def SPIRIX_UNDEF_NEGLIGIBLE_DIV_NEGLIGIBLE : Nat := 0b1110100100000000

def SPIRIX_UNDEF_NEGLIGIBLE_MUL_TRANSFINITE : Nat := 0b0001000000000000

def SPIRIX_UNDEF_TRANSFINITE_MUL_NEGLIGIBLE : Nat := 0b1110111100000000

def SPIRIX_UNDEF_SIGN_INDETERMINATE : Nat := 0b1110010000000000

-- ═══ Level 4: powers and roots ═══

def SPIRIX_UNDEF_TRANSFINITE_POWER : Nat := 0b0000111100000000

def SPIRIX_UNDEF_NEGLIGIBLE_POWER : Nat := 0b1111000000000000

def SPIRIX_UNDEF_POWER_TRANSFINITE : Nat := 0b0000111000000000

def SPIRIX_UNDEF_POWER_NEGLIGIBLE : Nat := 0b1111000100000000

def SPIRIX_UNDEF_NEGATIVE_POWER : Nat := 0b0000110100000000

def SPIRIX_UNDEF_SQRT_NEGATIVE : Nat := 0b1111011000000000

-- ═══ Level 7: general ═══

def SPIRIX_UNDEF_GENERAL : Nat := 0b1111111000000000

/-- The twenty named Undefined-subtype fraction literals of the catalog,
in source order. -/
def spirix_undef_catalog : List Nat :=
  [SPIRIX_UNDEF_TRANSFINITE_PLUS_TRANSFINITE,
   SPIRIX_UNDEF_TRANSFINITE_MINUS_TRANSFINITE,
   SPIRIX_UNDEF_VANISHED_PLUS_VANISHED,
   SPIRIX_UNDEF_VANISHED_MINUS_VANISHED,
   SPIRIX_UNDEF_TRANSFINITE_PLUS_FINITE,
   SPIRIX_UNDEF_TRANSFINITE_MINUS_FINITE,
   SPIRIX_UNDEF_FINITE_PLUS_TRANSFINITE,
   SPIRIX_UNDEF_FINITE_MINUS_TRANSFINITE,
   SPIRIX_UNDEF_TRANSFINITE_DIV_TRANSFINITE,
   SPIRIX_UNDEF_NEGLIGIBLE_DIV_NEGLIGIBLE,
   SPIRIX_UNDEF_NEGLIGIBLE_MUL_TRANSFINITE,
   SPIRIX_UNDEF_TRANSFINITE_MUL_NEGLIGIBLE,
   SPIRIX_UNDEF_SIGN_INDETERMINATE,
   SPIRIX_UNDEF_TRANSFINITE_POWER,
   SPIRIX_UNDEF_NEGLIGIBLE_POWER,
   SPIRIX_UNDEF_POWER_TRANSFINITE,
   SPIRIX_UNDEF_POWER_NEGLIGIBLE,
   SPIRIX_UNDEF_NEGATIVE_POWER,
   SPIRIX_UNDEF_SQRT_NEGATIVE,
   SPIRIX_UNDEF_GENERAL]

-- ═══ Detection helpers ═══

/-- spirix_is_zero from the source: fraction equals the Zero literal and
exponent equals the ambiguous sentinel. -/
def spirix_is_zero (fraction exponent : Nat) : Bool :=
  fraction == SPIRIX_ZERO_FRACTION && exponent == SPIRIX_AMBIGUOUS_EXPONENT

/-- spirix_is_infinity from the source: fraction equals the Infinity
literal and exponent equals the ambiguous sentinel. -/
def spirix_is_infinity (fraction exponent : Nat) : Bool :=
  fraction == SPIRIX_INFINITY_FRACTION && exponent == SPIRIX_AMBIGUOUS_EXPONENT

/-- spirix_is_undefined from the source: sentinel exponent, top three
bits of the fraction all zero or all one, and the fraction is neither
the Zero literal nor the Infinity literal. -/
def spirix_is_undefined (fraction exponent : Nat) : Bool :=
  if exponent != SPIRIX_AMBIGUOUS_EXPONENT then false
  else
    let top3 := fraction >>> 13
    (top3 == 0b000 || top3 == 0b111) &&
      fraction != SPIRIX_ZERO_FRACTION &&
      fraction != SPIRIX_INFINITY_FRACTION

/-- spirix_is_finite from the source: a non-sentinel exponent is finite
with no fraction inspection; under the sentinel exponent, finite means
not zero, not infinity and not undefined. -/
def spirix_is_finite (fraction exponent : Nat) : Bool :=
  if exponent == SPIRIX_AMBIGUOUS_EXPONENT then
    !spirix_is_zero fraction exponent &&
      !spirix_is_infinity fraction exponent &&
      !spirix_is_undefined fraction exponent
  else
    true

/-- Modelled from the spec: the source fragment omits the is_vanished
predicate; the spec data model defines Vanished as a fraction whose top
three bits are 001 or 110, under the sentinel exponent. -/
def spirix_is_vanished (fraction exponent : Nat) : Bool :=
  exponent == SPIRIX_AMBIGUOUS_EXPONENT &&
    (fraction >>> 13 == 0b001 || fraction >>> 13 == 0b110)

/-- Number of the four category predicates that hold on a pair; used to
state the partition property. -/
def spirix_category_count (fraction exponent : Nat) : Nat :=
  (if spirix_is_zero fraction exponent then 1 else 0) +
    (if spirix_is_infinity fraction exponent then 1 else 0) +
    (if spirix_is_vanished fraction exponent then 1 else 0) +
    (if spirix_is_undefined fraction exponent then 1 else 0)

-- ═══ Creation helpers (out-parameters become returned pairs) ═══

def spirix_create_zero : Nat × Nat :=
  (SPIRIX_ZERO_FRACTION, SPIRIX_AMBIGUOUS_EXPONENT)

/-- spirix_create_infinity from the source: the positive argument is
accepted but never read; the body writes the Infinity literal and the
sentinel exponent unconditionally. -/
def spirix_create_infinity (positive : Int) : Nat × Nat :=
  (SPIRIX_INFINITY_FRACTION, SPIRIX_AMBIGUOUS_EXPONENT)

def spirix_create_undefined : Nat × Nat :=
  (SPIRIX_UNDEF_GENERAL, SPIRIX_AMBIGUOUS_EXPONENT)

def spirix_create_undefined_zero_div_zero : Nat × Nat :=
  (SPIRIX_UNDEF_NEGLIGIBLE_DIV_NEGLIGIBLE, SPIRIX_AMBIGUOUS_EXPONENT)

def spirix_create_undefined_inf_minus_inf : Nat × Nat :=
  (SPIRIX_UNDEF_TRANSFINITE_MINUS_TRANSFINITE, SPIRIX_AMBIGUOUS_EXPONENT)

def spirix_create_undefined_inf_times_zero : Nat × Nat :=
  (SPIRIX_UNDEF_TRANSFINITE_MUL_NEGLIGIBLE, SPIRIX_AMBIGUOUS_EXPONENT)

-- ═══ Division edge-case resolver ═══

/-- spirix_gpu_safe_divide from the source, as a function from the
initial contents (result_frac, result_exp) of the two output fields to
their final contents. In the infinity-over-infinity branch the source
assigns the sentinel to the undeclared identifier result_exponent
instead of the out-parameter result_exp, so that branch updates only
the fraction field and leaves result_exp unchanged; the fall-through
finite path writes neither field. -/
def spirix_gpu_safe_divide (a_frac a_exp b_frac b_exp result_frac result_exp : Nat) :
    Nat × Nat :=
  let a_is_zero := spirix_is_zero a_frac a_exp
  let b_is_zero := spirix_is_zero b_frac b_exp
  let a_is_inf := spirix_is_infinity a_frac a_exp
  let b_is_inf := spirix_is_infinity b_frac b_exp
  if a_is_zero && b_is_zero then
    spirix_create_undefined_zero_div_zero
  else if a_is_inf && b_is_inf then
    (SPIRIX_UNDEF_TRANSFINITE_DIV_TRANSFINITE, result_exp)
  else if b_is_zero && !a_is_zero then
    spirix_create_infinity 1
  else if a_is_zero then
    spirix_create_zero
  else
    (result_frac, result_exp)

-- ═══ Helper lemmas ═══

/-- Unfolding of spirix_is_zero into propositional form. -/
lemma spirix_is_zero_eq_true_iff (f e : Nat) :
    spirix_is_zero f e = true ↔ f = SPIRIX_ZERO_FRACTION ∧ e = SPIRIX_AMBIGUOUS_EXPONENT := by
  simp [spirix_is_zero]

/-- Unfolding of spirix_is_infinity into propositional form. -/
lemma spirix_is_infinity_eq_true_iff (f e : Nat) :
    spirix_is_infinity f e = true ↔
      f = SPIRIX_INFINITY_FRACTION ∧ e = SPIRIX_AMBIGUOUS_EXPONENT := by
  simp [spirix_is_infinity]

/-- Unfolding of spirix_is_undefined into propositional form. -/
lemma spirix_is_undefined_eq_true_iff (f e : Nat) :
    spirix_is_undefined f e = true ↔
      e = SPIRIX_AMBIGUOUS_EXPONENT ∧ (f >>> 13 = 0 ∨ f >>> 13 = 7) ∧
        f ≠ SPIRIX_ZERO_FRACTION ∧ f ≠ SPIRIX_INFINITY_FRACTION := by
  simp only [spirix_is_undefined]
  split_ifs with h
  · simp only [bne_iff_ne, ne_eq, not_not] at h
    simp [h]
  · simp only [bne_iff_ne, ne_eq, not_not, Decidable.not_not] at h
    simp [h, and_assoc]
  
/-- A value classified finite is neither zero nor infinity. -/
lemma spirix_finite_not_zero_not_inf (f e : Nat) (h : spirix_is_finite f e = true) :
    spirix_is_zero f e = false ∧ spirix_is_infinity f e = false := by
  by_cases he : e = SPIRIX_AMBIGUOUS_EXPONENT
  · subst he
    simp only [spirix_is_finite, beq_self_eq_true, if_true, Bool.and_eq_true,
      Bool.not_eq_true'] at h
    exact ⟨h.1.1, h.1.2⟩
  · constructor
    · simp [spirix_is_zero, he]
    · simp [spirix_is_infinity, he]

/-- A value classified undefined is neither zero nor infinity. -/
lemma spirix_undefined_not_zero_not_inf (f e : Nat) (h : spirix_is_undefined f e = true) :
    spirix_is_zero f e = false ∧ spirix_is_infinity f e = false := by
  rw [spirix_is_undefined_eq_true_iff] at h
  constructor
  · simp [spirix_is_zero, h.2.2.1]
  · simp [spirix_is_infinity, h.2.2.2]

-- ═══ Claim theorems ═══

/-- Claim C1 (code bug): on the infinity-over-infinity input the source
writes the Undefined(transfinite div transfinite) literal into the
result fraction but assigns the sentinel to the undeclared identifier
result_exponent rather than to result_exp, so the result exponent keeps
its prior value; with a prior value of 0 the returned pair does not
classify as Undefined and instead classifies as finite. -/
theorem C1_inf_div_inf_exponent_not_updated :
    spirix_gpu_safe_divide SPIRIX_INFINITY_FRACTION SPIRIX_AMBIGUOUS_EXPONENT
        SPIRIX_INFINITY_FRACTION SPIRIX_AMBIGUOUS_EXPONENT 0 0 =
      (SPIRIX_UNDEF_TRANSFINITE_DIV_TRANSFINITE, 0) ∧
    spirix_is_undefined SPIRIX_UNDEF_TRANSFINITE_DIV_TRANSFINITE 0 = false ∧
    spirix_is_finite SPIRIX_UNDEF_TRANSFINITE_DIV_TRANSFINITE 0 = true := by
  decide

/-- Claim C2 (counterexample): the fraction with top three bits 010
under the sentinel exponent satisfies none of the four category
predicates, so the claimed exactly-one partition fails. -/
theorem C2_counterexample_tag_010 :
    spirix_is_zero 0b0100000000000000 SPIRIX_AMBIGUOUS_EXPONENT = false ∧
    spirix_is_infinity 0b0100000000000000 SPIRIX_AMBIGUOUS_EXPONENT = false ∧
    spirix_is_vanished 0b0100000000000000 SPIRIX_AMBIGUOUS_EXPONENT = false ∧
    spirix_is_undefined 0b0100000000000000 SPIRIX_AMBIGUOUS_EXPONENT = false ∧
    spirix_category_count 0b0100000000000000 SPIRIX_AMBIGUOUS_EXPONENT = 0 := by
  decide

/-- Claim C2 (amended): under the sentinel exponent at most one of the
four category predicates holds; exactly one holds whenever the top
three bits of the fraction are 000, 001, 110 or 111; and none of them
holds when the top three bits are 010, 011, 100 or 101. -/
theorem C2_sentinel_partition (f e : Nat) (he : e = SPIRIX_AMBIGUOUS_EXPONENT) :
    spirix_category_count f e ≤ 1 ∧
      (f >>> 13 = 0b000 ∨ f >>> 13 = 0b001 ∨ f >>> 13 = 0b110 ∨ f >>> 13 = 0b111 →
        spirix_category_count f e = 1) ∧
      (f >>> 13 = 0b010 ∨ f >>> 13 = 0b011 ∨ f >>> 13 = 0b100 ∨ f >>> 13 = 0b101 →
        spirix_category_count f e = 0) := by
  subst he
  have h13 : f >>> 13 = f / 8192 := by
    have := Nat.shiftRight_eq_div_pow f 13
    norm_num at this
    exact this
  simp only [spirix_category_count, spirix_is_zero, spirix_is_infinity, spirix_is_vanished,
    spirix_is_undefined, SPIRIX_AMBIGUOUS_EXPONENT, SPIRIX_ZERO_FRACTION,
    SPIRIX_INFINITY_FRACTION, h13, bne_self_eq_false, Bool.false_eq_true, if_false,
    beq_self_eq_true, Bool.true_and, Bool.and_true, Bool.and_eq_true, Bool.or_eq_true,
    beq_iff_eq, bne_iff_ne, ne_eq]
  split_ifs <;> omega

/-- Claim C3 (counterexample): the positive Vanished pattern under the
sentinel exponent is a vanished value on which spirix_is_finite returns
true, refuting the claim that it returns false there. -/
theorem C3_counterexample_vanished_counts_finite :
    spirix_is_vanished SPIRIX_VANISHED_POS_PATTERN SPIRIX_AMBIGUOUS_EXPONENT = true ∧
    spirix_is_finite SPIRIX_VANISHED_POS_PATTERN SPIRIX_AMBIGUOUS_EXPONENT = true := by
  decide

/-- Claim C3 (amended): every fraction with Vanished tag 001 or 110
under the sentinel exponent is not matched by spirix_is_undefined, but
spirix_is_finite returns true on it: the code counts Vanished values as
finite because is_finite only excludes zero, infinity and undefined. -/
theorem C3_vanished_not_undefined_yet_counts_finite (f : Nat)
    (h : f >>> 13 = 0b001 ∨ f >>> 13 = 0b110) :
    spirix_is_vanished f SPIRIX_AMBIGUOUS_EXPONENT = true ∧
    spirix_is_undefined f SPIRIX_AMBIGUOUS_EXPONENT = false ∧
    spirix_is_finite f SPIRIX_AMBIGUOUS_EXPONENT = true := by
  have h13 : f >>> 13 = f / 8192 := by
    have := Nat.shiftRight_eq_div_pow f 13
    norm_num at this
    exact this
  rw [h13] at h
  have hf0 : f ≠ SPIRIX_ZERO_FRACTION := by
    simp only [SPIRIX_ZERO_FRACTION]
    omega
  have hfI : f ≠ SPIRIX_INFINITY_FRACTION := by
    simp only [SPIRIX_INFINITY_FRACTION]
    omega
  have hz : spirix_is_zero f SPIRIX_AMBIGUOUS_EXPONENT = false := by
    simp [spirix_is_zero, hf0]
  have hi : spirix_is_infinity f SPIRIX_AMBIGUOUS_EXPONENT = false := by
    simp [spirix_is_infinity, hfI]
  have hu : spirix_is_undefined f SPIRIX_AMBIGUOUS_EXPONENT = false := by
    rw [Bool.eq_false_iff]
    intro hcon
    rw [spirix_is_undefined_eq_true_iff, h13] at hcon
    omega
  refine ⟨?_, hu, ?_⟩
  · simp only [spirix_is_vanished, h13, beq_self_eq_true, Bool.true_and, Bool.or_eq_true,
      beq_iff_eq]
    omega
  · simp [spirix_is_finite, hz, hi, hu]

/-- Claim C4: for every fraction and every non-sentinel exponent,
spirix_is_finite returns true without inspecting the fraction, and
spirix_is_zero, spirix_is_infinity and spirix_is_undefined all return
false. -/
theorem C4_normal_exponent_always_finite (f e : Nat)
    (he : e ≠ SPIRIX_AMBIGUOUS_EXPONENT) :
    spirix_is_finite f e = true ∧ spirix_is_zero f e = false ∧
      spirix_is_infinity f e = false ∧ spirix_is_undefined f e = false := by
  refine ⟨?_, ?_, ?_, ?_⟩ <;>
    simp [spirix_is_finite, spirix_is_zero, spirix_is_infinity, spirix_is_undefined, he]

/-- Claim C5: when both operands classify as Zero, the resolver writes
the Undefined(negligible div negligible) literal into the result
fraction and the sentinel into the result exponent. -/
theorem C5_zero_div_zero_undefined (a_frac a_exp b_frac b_exp rf re : Nat)
    (ha : spirix_is_zero a_frac a_exp = true)
    (hb : spirix_is_zero b_frac b_exp = true) :
    spirix_gpu_safe_divide a_frac a_exp b_frac b_exp rf re =
      (SPIRIX_UNDEF_NEGLIGIBLE_DIV_NEGLIGIBLE, SPIRIX_AMBIGUOUS_EXPONENT) := by
  simp [spirix_gpu_safe_divide, ha, hb, spirix_create_undefined_zero_div_zero]

/-- Claim C6: when the denominator classifies as Zero and the numerator
does not, the resolver writes the Infinity literal into the result
fraction and the sentinel into the result exponent. -/
theorem C6_div_by_zero_infinity (a_frac a_exp b_frac b_exp rf re : Nat)
    (ha : spirix_is_zero a_frac a_exp = false)
    (hb : spirix_is_zero b_frac b_exp = true) :
    spirix_gpu_safe_divide a_frac a_exp b_frac b_exp rf re =
      (SPIRIX_INFINITY_FRACTION, SPIRIX_AMBIGUOUS_EXPONENT) := by
  have hbf := (spirix_is_zero_eq_true_iff _ _).mp hb
  have hbi : spirix_is_infinity b_frac b_exp = false := by
    simp [spirix_is_infinity, hbf.1, SPIRIX_ZERO_FRACTION, SPIRIX_INFINITY_FRACTION]
  simp [spirix_gpu_safe_divide, ha, hb, hbi, spirix_create_infinity]

/-- Claim C7: when both operands classify as finite, the resolver takes
none of its special-case branches and returns both output fields with
their initial contents unchanged. -/
theorem C7_finite_operands_leave_result_untouched (a_frac a_exp b_frac b_exp rf re : Nat)
    (ha : spirix_is_finite a_frac a_exp = true)
    (hb : spirix_is_finite b_frac b_exp = true) :
    spirix_gpu_safe_divide a_frac a_exp b_frac b_exp rf re = (rf, re) := by
  obtain ⟨haz, hai⟩ := spirix_finite_not_zero_not_inf _ _ ha
  obtain ⟨hbz, hbi⟩ := spirix_finite_not_zero_not_inf _ _ hb
  simp [spirix_gpu_safe_divide, haz, hai, hbz, hbi]

/-- Claim C8: the twenty named Undefined-subtype literals are pairwise
distinct, each differs from the Zero literal, the Infinity literal and
the two Vanished patterns, and each of them under the sentinel exponent
satisfies spirix_is_undefined. -/
theorem C8_catalog_distinct_and_classified_undefined :
    spirix_undef_catalog.Nodup ∧
    spirix_undef_catalog.all (fun u =>
      u != SPIRIX_ZERO_FRACTION && u != SPIRIX_INFINITY_FRACTION &&
        u != SPIRIX_VANISHED_POS_PATTERN && u != SPIRIX_VANISHED_NEG_PATTERN &&
        spirix_is_undefined u SPIRIX_AMBIGUOUS_EXPONENT) = true := by
  decide

/-- Claim C9: spirix_create_infinity is independent of its sign
argument: any two argument values produce the same output pair, namely
the Infinity literal with the sentinel exponent. -/
theorem C9_create_infinity_ignores_sign (p1 p2 : Int) :
    spirix_create_infinity p1 = spirix_create_infinity p2 ∧
      spirix_create_infinity p1 =
        (SPIRIX_INFINITY_FRACTION, SPIRIX_AMBIGUOUS_EXPONENT) :=
  ⟨rfl, rfl⟩

/-- Claim C10: when the numerator classifies as Undefined (any subtype)
and the denominator classifies as Zero, the resolver returns the
canonical Infinity pair, discarding the Undefined provenance. -/
theorem C10_undefined_over_zero_gives_infinity (a_frac a_exp b_frac b_exp rf re : Nat)
    (ha : spirix_is_undefined a_frac a_exp = true)
    (hb : spirix_is_zero b_frac b_exp = true) :
    spirix_gpu_safe_divide a_frac a_exp b_frac b_exp rf re =
      (SPIRIX_INFINITY_FRACTION, SPIRIX_AMBIGUOUS_EXPONENT) := by
  obtain ⟨haz, hai⟩ := spirix_undefined_not_zero_not_inf _ _ ha
  have hbf := (spirix_is_zero_eq_true_iff _ _).mp hb
  have hbi : spirix_is_infinity b_frac b_exp = false := by
    simp [spirix_is_infinity, hbf.1, SPIRIX_ZERO_FRACTION, SPIRIX_INFINITY_FRACTION]
  simp [spirix_gpu_safe_divide, haz, hai, hb, hbi, spirix_create_infinity]

-- ═══ Witnesses ═══

/-- Witness for C2: fraction 0 (tag 000) under the sentinel exponent
satisfies exactly one predicate, and fraction 0b0110000000000000
(tag 011) under the sentinel exponent satisfies none. -/
theorem C2_sentinel_partition_witness :
    spirix_category_count 0 SPIRIX_AMBIGUOUS_EXPONENT ≤ 1 ∧
      spirix_category_count 0 SPIRIX_AMBIGUOUS_EXPONENT = 1 ∧
      spirix_category_count 0b0110000000000000 SPIRIX_AMBIGUOUS_EXPONENT = 0 :=
  ⟨(C2_sentinel_partition 0 SPIRIX_AMBIGUOUS_EXPONENT rfl).1,
   (C2_sentinel_partition 0 SPIRIX_AMBIGUOUS_EXPONENT rfl).2.1 (Or.inl (by decide)),
   (C2_sentinel_partition 0b0110000000000000 SPIRIX_AMBIGUOUS_EXPONENT rfl).2.2
     (Or.inr (Or.inl (by decide)))⟩

/-- Witness for C3 at the positive Vanished pattern. -/
theorem C3_vanished_witness :
    spirix_is_vanished SPIRIX_VANISHED_POS_PATTERN SPIRIX_AMBIGUOUS_EXPONENT = true ∧
    spirix_is_undefined SPIRIX_VANISHED_POS_PATTERN SPIRIX_AMBIGUOUS_EXPONENT = false ∧
    spirix_is_finite SPIRIX_VANISHED_POS_PATTERN SPIRIX_AMBIGUOUS_EXPONENT = true :=
  C3_vanished_not_undefined_yet_counts_finite SPIRIX_VANISHED_POS_PATTERN
    (Or.inl (by decide))

/-- Witness for C4 at an Undefined-looking fraction with a normal
exponent. -/
theorem C4_normal_exponent_witness :
    spirix_is_finite SPIRIX_UNDEF_GENERAL 0 = true ∧
      spirix_is_zero SPIRIX_UNDEF_GENERAL 0 = false ∧
      spirix_is_infinity SPIRIX_UNDEF_GENERAL 0 = false ∧
      spirix_is_undefined SPIRIX_UNDEF_GENERAL 0 = false :=
  C4_normal_exponent_always_finite SPIRIX_UNDEF_GENERAL 0 (by decide)

/-- Witness for C5 at canonical Zero over canonical Zero. -/
theorem C5_zero_div_zero_witness :
    spirix_gpu_safe_divide SPIRIX_ZERO_FRACTION SPIRIX_AMBIGUOUS_EXPONENT
        SPIRIX_ZERO_FRACTION SPIRIX_AMBIGUOUS_EXPONENT 7 9 =
      (SPIRIX_UNDEF_NEGLIGIBLE_DIV_NEGLIGIBLE, SPIRIX_AMBIGUOUS_EXPONENT) :=
  C5_zero_div_zero_undefined SPIRIX_ZERO_FRACTION SPIRIX_AMBIGUOUS_EXPONENT
    SPIRIX_ZERO_FRACTION SPIRIX_AMBIGUOUS_EXPONENT 7 9 (by decide) (by decide)

/-- Witness for C6 at a finite numerator over canonical Zero. -/
theorem C6_div_by_zero_witness :
    spirix_gpu_safe_divide 5 0 SPIRIX_ZERO_FRACTION SPIRIX_AMBIGUOUS_EXPONENT 1 2 =
      (SPIRIX_INFINITY_FRACTION, SPIRIX_AMBIGUOUS_EXPONENT) :=
  C6_div_by_zero_infinity 5 0 SPIRIX_ZERO_FRACTION SPIRIX_AMBIGUOUS_EXPONENT 1 2
    (by decide) (by decide)

/-- Witness for C7 at two finite operands. -/
theorem C7_finite_operands_witness :
    spirix_gpu_safe_divide 5 0 3 0 1234 17 = (1234, 17) :=
  C7_finite_operands_leave_result_untouched 5 0 3 0 1234 17 (by decide) (by decide)

/-- Witness for C10 at an Undefined numerator over canonical Zero. -/
theorem C10_undefined_over_zero_witness :
    spirix_gpu_safe_divide SPIRIX_UNDEF_NEGLIGIBLE_DIV_NEGLIGIBLE
        SPIRIX_AMBIGUOUS_EXPONENT SPIRIX_ZERO_FRACTION SPIRIX_AMBIGUOUS_EXPONENT 3 4 =
      (SPIRIX_INFINITY_FRACTION, SPIRIX_AMBIGUOUS_EXPONENT) :=
  C10_undefined_over_zero_gives_infinity SPIRIX_UNDEF_NEGLIGIBLE_DIV_NEGLIGIBLE
    SPIRIX_AMBIGUOUS_EXPONENT SPIRIX_ZERO_FRACTION SPIRIX_AMBIGUOUS_EXPONENT 3 4
    (by decide) (by decide)
